import Mathlib

/-!
Shallow embedding of the payments and invoicing module of the Derzi
master book application (derzi_master_book/payments/models.py and
derzi_master_book/payments/payment_manager.py), together with theorems
checking the specification of the invoice status reconciliation logic
and the invoice and payment CRUD operations.

Modelling conventions:
* Python Decimal amounts are embedded as integers counted in a fixed
  smallest currency unit (for example cents). The code applies only
  addition, equality and order comparisons to amounts, all of which the
  map from fixed-scale decimals to integers preserves exactly, and any
  finite set of Decimal values has a common scale, so every concrete
  Decimal scenario is an instance of the integer theorems.
* Dates are embedded as integers (day ordinals); the code only compares
  dates, and the current date is passed as a parameter named today.
* UUID identifiers are embedded as natural numbers; a freshly generated
  id is passed as an explicit parameter.
* Python mutation of a record object found in a list is embedded as
  replacement of the first list element with the matching id, which is
  exactly the object the id lookup returns.
* A Python function that raises ValueError is embedded as one returning
  Except Err; the distinct error messages are classified following the
  error taxonomy of section 7 of the specification. A function that
  signals a missing record by returning None is embedded with a
  dedicated notFound result constructor.
-/

namespace Derzi

/-- Monetary amount: a Python Decimal, counted in the smallest currency
unit. -/
abbrev Money := Int

/-- Error taxonomy (specification section 7) for the ValueError messages
raised by the source. -/
inductive Err where
  | notFound
  | invalidArgument
  | invalidState
deriving DecidableEq

/-- Invoice record (models.py, class Invoice). -/
structure Invoice where
  invoice_id : Nat
  order_id : Nat
  invoice_date : Int
  due_date : Int
  total_amount : Money
  status : String
  notes : Option String
deriving DecidableEq

/-- models.py, Invoice.VALID_STATUSES. -/
def Invoice.VALID_STATUSES : List String :=
  ["Draft", "Sent", "Paid", "Partial", "Overdue", "Cancelled"]

/-- Invoice constructor validation (models.py, Invoice.init): the total
amount must be non-negative and the status must be in the valid enum.
The isinstance checks on due_date and total_amount are subsumed by the
types of the embedding. -/
def Invoice.make (order_id : Nat) (due_date : Int) (total_amount : Money)
    (invoice_id : Nat) (invoice_date : Int) (status : String)
    (notes : Option String) : Except Err Invoice :=
  if total_amount < 0 then .error .invalidArgument
  else if status ∈ Invoice.VALID_STATUSES then
    .ok ⟨invoice_id, order_id, invoice_date, due_date, total_amount, status, notes⟩
  else .error .invalidArgument

/-- Payment record (models.py, class Payment). -/
structure Payment where
  payment_id : Nat
  invoice_id : Nat
  payment_date : Int
  amount_paid : Money
  payment_method : String
  transaction_id : Option String
  notes : Option String
deriving DecidableEq

/-- models.py, Payment.VALID_PAYMENT_METHODS. -/
def Payment.VALID_PAYMENT_METHODS : List String :=
  ["Cash", "Credit Card", "Bank Transfer", "Other"]

/-- Payment constructor validation (models.py, Payment.init): the amount
paid must be strictly positive and the payment method must be in the
valid enum. The isinstance check on amount_paid is subsumed by typing. -/
def Payment.make (invoice_id : Nat) (amount_paid : Money) (payment_method : String)
    (payment_id : Nat) (payment_date : Int) (transaction_id : Option String)
    (notes : Option String) : Except Err Payment :=
  if amount_paid ≤ 0 then .error .invalidArgument
  else if payment_method ∈ Payment.VALID_PAYMENT_METHODS then
    .ok ⟨payment_id, invoice_id, payment_date, amount_paid, payment_method,
         transaction_id, notes⟩
  else .error .invalidArgument

/-- The two global in-memory stores of payment_manager.py
(invoices_db and payments_db). -/
structure State where
  invoices_db : List Invoice
  payments_db : List Payment
deriving DecidableEq

/-- Order record, reduced to the fields the payment manager reads
(orders/models.py: price is nullable and never validated). -/
structure Order where
  order_id : Nat
  price : Option Money
deriving DecidableEq

/-- orders/order_manager.py, get_order_by_id: linear scan. -/
def get_order_by_id (orders_db : List Order) (order_id : Nat) : Option Order :=
  orders_db.find? (fun o => o.order_id == order_id)

/-- payment_manager.py, get_invoice_by_id: first invoice with the id. -/
def get_invoice_by_id (st : State) (invoice_id : Nat) : Option Invoice :=
  st.invoices_db.find? (fun inv => inv.invoice_id == invoice_id)

/-- payment_manager.py, get_payments_for_invoice: all payments whose
invoice reference matches. -/
def get_payments_for_invoice (st : State) (invoice_id : Nat) : List Payment :=
  st.payments_db.filter (fun p => p.invoice_id == invoice_id)

/-- payment_manager.py, get_payment_by_id: first payment with the id. -/
def get_payment_by_id (st : State) (payment_id : Nat) : Option Payment :=
  st.payments_db.find? (fun p => p.payment_id == payment_id)

/-- Outcome of an update operation in the source: the Python function
returns None when the record is missing, raises ValueError on invalid
input, and otherwise returns the updated record. -/
inductive UpdateResult (α : Type) where
  | notFound
  | error (e : Err)
  | ok (val : α)
deriving DecidableEq

/-- In-place mutation of the status field of the invoice object returned
by the id lookup: the first list entry with the given id is replaced. -/
def set_invoice_status : List Invoice → Nat → String → List Invoice
  | [], _, _ => []
  | inv :: rest, invoice_id, new_status =>
    if inv.invoice_id == invoice_id then { inv with status := new_status } :: rest
    else inv :: set_invoice_status rest invoice_id new_status

/-- payment_manager.py, update_invoice_status: returns None when the
invoice is missing, raises when new_status is not in the valid enum,
otherwise overwrites the status field unconditionally. -/
def update_invoice_status (st : State) (invoice_id : Nat) (new_status : String) :
    UpdateResult Invoice × State :=
  match get_invoice_by_id st invoice_id with
  | none => (.notFound, st)
  | some inv =>
    if new_status ∈ Invoice.VALID_STATUSES then
      (.ok { inv with status := new_status },
       { st with invoices_db := set_invoice_status st.invoices_db invoice_id new_status })
    else (.error .invalidArgument, st)

/-- payment_manager.py, delete_invoice: the loop removing each element
of get_payments_for_invoice from payments_db keeps exactly the payments
whose invoice reference differs, in order; then the found invoice object
(the first entry with the id) is removed. -/
def delete_invoice (st : State) (invoice_id : Nat) : Bool × State :=
  match get_invoice_by_id st invoice_id with
  | none => (false, st)
  | some _ =>
    let st1 : State :=
      { st with payments_db := st.payments_db.filter (fun p => !(p.invoice_id == invoice_id)) }
    (true, { st1 with invoices_db := st1.invoices_db.eraseP (fun inv => inv.invoice_id == invoice_id) })

/-- payment_manager.py, add_payment_to_invoice: lookup, construct the
payment (which validates amount and method), append. The call to
calculate_invoice_status_after_payment at the end of the source function
is commented out (lines 139 to 141), so no reconciliation happens here. -/
def add_payment_to_invoice (st : State) (payment_id : Nat) (payment_date : Int)
    (invoice_id : Nat) (amount_paid : Money) (payment_method : String)
    (transaction_id : Option String) (notes : Option String) :
    Except Err (Payment × State) :=
  match get_invoice_by_id st invoice_id with
  | none => .error .notFound
  | some _ =>
    match Payment.make invoice_id amount_paid payment_method payment_id
        payment_date transaction_id notes with
    | .error e => .error e
    | .ok p => .ok (p, { st with payments_db := st.payments_db ++ [p] })

/-- The store state visible after a call to add_payment_to_invoice: the
new state on success, the unchanged state when the call raises. -/
def add_payment_apply (st : State) (payment_id : Nat) (payment_date : Int)
    (invoice_id : Nat) (amount_paid : Money) (payment_method : String)
    (transaction_id : Option String) (notes : Option String) : State :=
  match add_payment_to_invoice st payment_id payment_date invoice_id amount_paid
      payment_method transaction_id notes with
  | .ok (_, st1) => st1
  | .error _ => st

/-- In-place mutation of a field of the payment object returned by the
id lookup: the first list entry with the given id is replaced. -/
def modify_payment : List Payment → Nat → (Payment → Payment) → List Payment
  | [], _, _ => []
  | p :: rest, payment_id, f =>
    if p.payment_id == payment_id then f p :: rest
    else p :: modify_payment rest payment_id f

/-- payment_manager.py, update_payment_details, tail of the function:
the transaction_id and notes blocks, then the return of the mutated
payment object. -/
def update_payment_step2 (st : State) (payment_id : Nat)
    (transaction_id : Option String) (notes : Option String) :
    UpdateResult Payment × State :=
  let st1 : State := match transaction_id with
    | some t =>
      let db1 := modify_payment st.payments_db payment_id
        (fun p => { p with transaction_id := some t })
      { st with payments_db := db1 }
    | none => st
  let st2 : State := match notes with
    | some n =>
      let db2 := modify_payment st1.payments_db payment_id
        (fun p => { p with notes := some n })
      { st1 with payments_db := db2 }
    | none => st1
  match get_payment_by_id st2 payment_id with
  | some p => (.ok p, st2)
  | none => (.notFound, st2)

/-- payment_manager.py, update_payment_details, middle of the function:
the payment_method block, which raises after the amount_paid block has
already written its field. -/
def update_payment_step1 (st : State) (payment_id : Nat)
    (payment_method : Option String) (transaction_id : Option String)
    (notes : Option String) : UpdateResult Payment × State :=
  match payment_method with
  | none => update_payment_step2 st payment_id transaction_id notes
  | some m =>
    if m ∈ Payment.VALID_PAYMENT_METHODS then
      let db1 := modify_payment st.payments_db payment_id
        (fun p => { p with payment_method := m })
      update_payment_step2 { st with payments_db := db1 } payment_id transaction_id notes
    else (.error .invalidArgument, st)

/-- payment_manager.py, update_payment_details: lookup, then the four
optional field blocks applied in order (amount_paid, payment_method,
transaction_id, notes), each validating then mutating in place. The
commented-out reconciliation call (line 200) is absent. -/
def update_payment_details (st : State) (payment_id : Nat)
    (amount_paid : Option Money) (payment_method : Option String)
    (transaction_id : Option String) (notes : Option String) :
    UpdateResult Payment × State :=
  match get_payment_by_id st payment_id with
  | none => (.notFound, st)
  | some _ =>
    match amount_paid with
    | none => update_payment_step1 st payment_id payment_method transaction_id notes
    | some a =>
      if a ≤ 0 then (.error .invalidArgument, st)
      else
        let db1 := modify_payment st.payments_db payment_id
          (fun p => { p with amount_paid := a })
        update_payment_step1 { st with payments_db := db1 } payment_id
          payment_method transaction_id notes

/-- payment_manager.py, delete_payment: the found payment object (the
first entry with the id) is removed; the commented-out reconciliation
call (line 216) is absent. -/
def delete_payment (st : State) (payment_id : Nat) : Bool × State :=
  match get_payment_by_id st payment_id with
  | none => (false, st)
  | some _ =>
    (true, { st with payments_db := st.payments_db.eraseP (fun p => p.payment_id == payment_id) })

/-- payment_manager.py line 234: sum of amount_paid over the payments
linked to the invoice. -/
def total_paid (st : State) (invoice_id : Nat) : Money :=
  ((get_payments_for_invoice st invoice_id).map Payment.amount_paid).sum

/-- payment_manager.py, calculate_invoice_status_after_payment: the
reconciliation. Missing invoice: no-op. Cancelled invoice: no-op. Then
the if chain over total_paid, delegating the write to
update_invoice_status. -/
def calculate_invoice_status_after_payment (st : State) (today : Int)
    (invoice_id : Nat) : State :=
  match get_invoice_by_id st invoice_id with
  | none => st
  | some inv =>
    if inv.status = "Cancelled" then st
    else
      if total_paid st invoice_id ≥ inv.total_amount then
        (update_invoice_status st invoice_id "Paid").2
      else if 0 < total_paid st invoice_id ∧ total_paid st invoice_id < inv.total_amount then
        (update_invoice_status st invoice_id "Partial").2
      else if total_paid st invoice_id = 0 then
        if inv.due_date < today ∧ inv.status ∉ (["Draft", "Sent"] : List String) then
          (update_invoice_status st invoice_id "Overdue").2
        else if inv.status = "Paid" ∨ inv.status = "Partial" then
          (update_invoice_status st invoice_id "Sent").2
        else st
      else st

/-- payment_manager.py, create_invoice_for_order: order lookup, price
presence check, then the Invoice constructor with status Draft and
invoice_date defaulting to today, and append to the store. -/
def create_invoice_for_order (orders_db : List Order) (st : State)
    (invoice_id : Nat) (today : Int) (order_id : Nat) (due_date : Int)
    (notes : Option String) : Except Err (Invoice × State) :=
  match get_order_by_id orders_db order_id with
  | none => .error .notFound
  | some o =>
    match o.price with
    | none => .error .invalidState
    | some pr =>
      match Invoice.make order_id due_date pr invoice_id today "Draft" notes with
      | .error e => .error e
      | .ok inv => .ok (inv, { st with invoices_db := st.invoices_db ++ [inv] })

/-- A payment mutation as issued by a caller, together with the
reconciliation itself (so that sequences covering section 4.3 of the
specification can be stated). -/
inductive Op where
  | addPayment (payment_id : Nat) (payment_date : Int) (invoice_id : Nat)
      (amount_paid : Money) (payment_method : String)
      (transaction_id : Option String) (notes : Option String)
  | updatePayment (payment_id : Nat) (amount_paid : Option Money)
      (payment_method : Option String) (transaction_id : Option String)
      (notes : Option String)
  | deletePayment (payment_id : Nat)
  | reconcile (invoice_id : Nat)

/-- The store state after one operation. -/
def Op.apply (today : Int) (st : State) : Op → State
  | .addPayment pid pd iid a m tx n => add_payment_apply st pid pd iid a m tx n
  | .updatePayment pid a m tx n => (update_payment_details st pid a m tx n).2
  | .deletePayment pid => (delete_payment st pid).2
  | .reconcile iid => calculate_invoice_status_after_payment st today iid

/-- The store state after a sequence of operations. -/
def runOps (today : Int) : State → List Op → State
  | st, [] => st
  | st, op :: ops => runOps today (Op.apply today st op) ops

/-- The status transition function of the reconciliation as a pure
function of total paid, total amount, whether the due date is strictly
before today, and the current status; it mirrors the branch structure of
calculate_invoice_status_after_payment. -/
def reconcileStatus (tp ta : Money) (due_lt : Bool) (s : String) : String :=
  if s = "Cancelled" then s
  else if tp ≥ ta then "Paid"
  else if 0 < tp ∧ tp < ta then "Partial"
  else if tp = 0 then
    if due_lt = true ∧ s ∉ (["Draft", "Sent"] : List String) then "Overdue"
    else if s = "Paid" ∨ s = "Partial" then "Sent"
    else s
  else s

/-! Lemmas about the embedding. -/

lemma set_invoice_status_cons_pos (a : Invoice) (t : List Invoice) (iid : Nat)
    (ns : String) (h : a.invoice_id = iid) :
    set_invoice_status (a :: t) iid ns = { a with status := ns } :: t := by
  simp [set_invoice_status, h]

lemma set_invoice_status_cons_neg (a : Invoice) (t : List Invoice) (iid : Nat)
    (ns : String) (h : ¬ a.invoice_id = iid) :
    set_invoice_status (a :: t) iid ns = a :: set_invoice_status t iid ns := by
  simp [set_invoice_status, h]

lemma find_set_invoice_status (l : List Invoice) (iid : Nat) (ns : String) :
    (set_invoice_status l iid ns).find? (fun inv => inv.invoice_id == iid)
      = (l.find? (fun inv => inv.invoice_id == iid)).map
          (fun inv => { inv with status := ns }) := by
  induction l with
  | nil => rfl
  | cons a t ih =>
    by_cases h : a.invoice_id = iid
    · rw [set_invoice_status_cons_pos a t iid ns h,
        List.find?_cons_of_pos _ (by simp [h]),
        List.find?_cons_of_pos _ (by simp [h])]
      rfl
    · rw [set_invoice_status_cons_neg a t iid ns h,
        List.find?_cons_of_neg _ (by simp [h]),
        List.find?_cons_of_neg _ (by simp [h]), ih]

lemma find_set_invoice_status_ne (l : List Invoice) (j iid : Nat) (hne : j ≠ iid)
    (ns : String) :
    (set_invoice_status l j ns).find? (fun inv => inv.invoice_id == iid)
      = l.find? (fun inv => inv.invoice_id == iid) := by
  induction l with
  | nil => rfl
  | cons a t ih =>
    by_cases h : a.invoice_id = j
    · have h2 : ¬ a.invoice_id = iid := by
        rw [h]; exact hne
      rw [set_invoice_status_cons_pos a t j ns h,
        List.find?_cons_of_neg _ (by simp [h2]),
        List.find?_cons_of_neg _ (by simp [h2])]
    · by_cases h3 : a.invoice_id = iid
      · rw [set_invoice_status_cons_neg a t j ns h,
          List.find?_cons_of_pos _ (by simp [h3]),
          List.find?_cons_of_pos _ (by simp [h3])]
      · rw [set_invoice_status_cons_neg a t j ns h,
          List.find?_cons_of_neg _ (by simp [h3]),
          List.find?_cons_of_neg _ (by simp [h3]), ih]

lemma modify_payment_cons_pos (a : Payment) (t : List Payment) (pid : Nat)
    (f : Payment → Payment) (h : a.payment_id = pid) :
    modify_payment (a :: t) pid f = f a :: t := by
  simp [modify_payment, h]

lemma modify_payment_cons_neg (a : Payment) (t : List Payment) (pid : Nat)
    (f : Payment → Payment) (h : ¬ a.payment_id = pid) :
    modify_payment (a :: t) pid f = a :: modify_payment t pid f := by
  simp [modify_payment, h]

lemma find_modify_payment (l : List Payment) (pid : Nat) (f : Payment → Payment)
    (hf : ∀ p, (f p).payment_id = p.payment_id) :
    (modify_payment l pid f).find? (fun p => p.payment_id == pid)
      = (l.find? (fun p => p.payment_id == pid)).map f := by
  induction l with
  | nil => rfl
  | cons a t ih =>
    by_cases h : a.payment_id = pid
    · rw [modify_payment_cons_pos a t pid f h,
        List.find?_cons_of_pos _ (by simp [hf, h]),
        List.find?_cons_of_pos _ (by simp [h])]
      rfl
    · rw [modify_payment_cons_neg a t pid f h,
        List.find?_cons_of_neg _ (by simp [h]),
        List.find?_cons_of_neg _ (by simp [h]), ih]

lemma get_invoice_by_id_congr (st1 st2 : State) (iid : Nat)
    (h : st1.invoices_db = st2.invoices_db) :
    get_invoice_by_id st1 iid = get_invoice_by_id st2 iid := by
  unfold get_invoice_by_id
  rw [h]

lemma update_invoice_status_payments_db (st : State) (iid : Nat) (ns : String) :
    (update_invoice_status st iid ns).2.payments_db = st.payments_db := by
  unfold update_invoice_status
  cases get_invoice_by_id st iid with
  | none => rfl
  | some inv => by_cases h : ns ∈ Invoice.VALID_STATUSES <;> simp [h]

lemma update_invoice_status_invoices_db (st : State) (iid : Nat) (ns : String)
    (inv : Invoice) (hfind : get_invoice_by_id st iid = some inv)
    (hvalid : ns ∈ Invoice.VALID_STATUSES) :
    (update_invoice_status st iid ns).2.invoices_db
      = set_invoice_status st.invoices_db iid ns := by
  unfold update_invoice_status
  rw [hfind]
  simp [hvalid]

lemma get_invoice_by_id_update_pos (st : State) (iid : Nat) (ns : String)
    (inv : Invoice) (hfind : get_invoice_by_id st iid = some inv)
    (hvalid : ns ∈ Invoice.VALID_STATUSES) :
    get_invoice_by_id (update_invoice_status st iid ns).2 iid
      = some { inv with status := ns } := by
  have h1 := update_invoice_status_invoices_db st iid ns inv hfind hvalid
  unfold get_invoice_by_id
  rw [h1, find_set_invoice_status]
  unfold get_invoice_by_id at hfind
  rw [hfind]
  rfl

lemma get_invoice_by_id_update_ne (st : State) (j iid : Nat) (hne : j ≠ iid)
    (ns : String) :
    get_invoice_by_id (update_invoice_status st j ns).2 iid
      = get_invoice_by_id st iid := by
  unfold update_invoice_status
  cases get_invoice_by_id st j with
  | none => rfl
  | some inv =>
    by_cases h : ns ∈ Invoice.VALID_STATUSES <;>
      simp [h, get_invoice_by_id, find_set_invoice_status_ne st.invoices_db j iid hne ns]

/-- The reconciliation rewrites the status of the affected invoice with
the value of the pure transition function reconcileStatus and changes
nothing else about that invoice. -/
lemma calc_status_spec (st : State) (today : Int) (iid : Nat) (inv : Invoice)
    (hfind : get_invoice_by_id st iid = some inv) :
    get_invoice_by_id (calculate_invoice_status_after_payment st today iid) iid
      = some { inv with status := reconcileStatus (total_paid st iid) inv.total_amount (decide (inv.due_date < today)) inv.status } := by
  unfold calculate_invoice_status_after_payment reconcileStatus
  rw [hfind]
  simp only [decide_eq_true_eq]
  by_cases hc : inv.status = "Cancelled"
  · rw [if_pos hc, if_pos hc, hfind]
  · rw [if_neg hc, if_neg hc]
    by_cases h1 : total_paid st iid ≥ inv.total_amount
    · rw [if_pos h1, if_pos h1]
      exact get_invoice_by_id_update_pos st iid "Paid" inv hfind (by decide)
    · rw [if_neg h1, if_neg h1]
      by_cases h2 : 0 < total_paid st iid ∧ total_paid st iid < inv.total_amount
      · rw [if_pos h2, if_pos h2]
        exact get_invoice_by_id_update_pos st iid "Partial" inv hfind (by decide)
      · rw [if_neg h2, if_neg h2]
        by_cases h3 : total_paid st iid = 0
        · rw [if_pos h3, if_pos h3]
          by_cases h4 : inv.due_date < today
              ∧ inv.status ∉ (["Draft", "Sent"] : List String)
          · rw [if_pos h4, if_pos h4]
            exact get_invoice_by_id_update_pos st iid "Overdue" inv hfind (by decide)
          · rw [if_neg h4, if_neg h4]
            by_cases h5 : inv.status = "Paid" ∨ inv.status = "Partial"
            · rw [if_pos h5, if_pos h5]
              exact get_invoice_by_id_update_pos st iid "Sent" inv hfind (by decide)
            · rw [if_neg h5, if_neg h5, hfind]
        · rw [if_neg h3, if_neg h3, hfind]

/-- The reconciliation never touches the payment store. -/
lemma calc_payments_db (st : State) (today : Int) (iid : Nat) :
    (calculate_invoice_status_after_payment st today iid).payments_db
      = st.payments_db := by
  unfold calculate_invoice_status_after_payment
  cases get_invoice_by_id st iid with
  | none => rfl
  | some inv =>
    by_cases hc : inv.status = "Cancelled"
    · simp [hc]
    · simp only [hc, if_false]
      split_ifs <;> first | rfl | apply update_invoice_status_payments_db

lemma total_paid_congr (st1 st2 : State) (iid : Nat)
    (h : st1.payments_db = st2.payments_db) :
    total_paid st1 iid = total_paid st2 iid := by
  unfold total_paid get_payments_for_invoice
  rw [h]

lemma add_payment_apply_invoices_db (st : State) (pid : Nat) (pd : Int)
    (iid : Nat) (a : Money) (m : String) (tx n : Option String) :
    (add_payment_apply st pid pd iid a m tx n).invoices_db = st.invoices_db := by
  unfold add_payment_apply add_payment_to_invoice Payment.make
  cases get_invoice_by_id st iid with
  | none => rfl
  | some inv => split_ifs <;> rfl

lemma update_payment_step2_invoices_db (st : State) (pid : Nat)
    (tx n : Option String) :
    (update_payment_step2 st pid tx n).2.invoices_db = st.invoices_db := by
  unfold update_payment_step2
  cases tx <;> cases n <;> dsimp only <;> split <;> rfl

lemma update_payment_step1_invoices_db (st : State) (pid : Nat)
    (m : Option String) (tx n : Option String) :
    (update_payment_step1 st pid m tx n).2.invoices_db = st.invoices_db := by
  unfold update_payment_step1
  cases m with
  | none => exact update_payment_step2_invoices_db st pid tx n
  | some m0 =>
    by_cases h : m0 ∈ Payment.VALID_PAYMENT_METHODS
    · simp only [if_pos h]
      exact update_payment_step2_invoices_db _ pid tx n
    · simp only [if_neg h]

lemma update_payment_details_invoices_db (st : State) (pid : Nat)
    (a : Option Money) (m : Option String) (tx n : Option String) :
    (update_payment_details st pid a m tx n).2.invoices_db = st.invoices_db := by
  unfold update_payment_details
  cases get_payment_by_id st pid with
  | none => rfl
  | some p =>
    cases a with
    | none => exact update_payment_step1_invoices_db st pid m tx n
    | some a0 =>
      by_cases h : a0 ≤ 0
      · simp only [if_pos h]
      · simp only [if_neg h]
        exact update_payment_step1_invoices_db _ pid m tx n

lemma delete_payment_invoices_db (st : State) (pid : Nat) :
    (delete_payment st pid).2.invoices_db = st.invoices_db := by
  unfold delete_payment
  cases get_payment_by_id st pid <;> rfl

lemma calc_get_ne (st : State) (today : Int) (j iid : Nat) (hne : j ≠ iid) :
    get_invoice_by_id (calculate_invoice_status_after_payment st today j) iid
      = get_invoice_by_id st iid := by
  unfold calculate_invoice_status_after_payment
  cases get_invoice_by_id st j with
  | none => rfl
  | some inv =>
    by_cases hc : inv.status = "Cancelled"
    · simp [hc]
    · simp only [hc, if_false]
      split_ifs <;> first | rfl | apply get_invoice_by_id_update_ne st j iid hne

lemma op_preserves_cancelled (today : Int) (st : State) (iid : Nat) (op : Op)
    (h : Option.map Invoice.status (get_invoice_by_id st iid) = some "Cancelled") :
    Option.map Invoice.status (get_invoice_by_id (Op.apply today st op) iid)
      = some "Cancelled" := by
  cases op with
  | addPayment pid pd j a m tx n =>
    show Option.map Invoice.status
      (get_invoice_by_id (add_payment_apply st pid pd j a m tx n) iid) = some "Cancelled"
    rw [get_invoice_by_id_congr _ st iid (add_payment_apply_invoices_db st pid pd j a m tx n)]
    exact h
  | updatePayment pid a m tx n =>
    show Option.map Invoice.status
      (get_invoice_by_id (update_payment_details st pid a m tx n).2 iid) = some "Cancelled"
    rw [get_invoice_by_id_congr _ st iid (update_payment_details_invoices_db st pid a m tx n)]
    exact h
  | deletePayment pid =>
    show Option.map Invoice.status
      (get_invoice_by_id (delete_payment st pid).2 iid) = some "Cancelled"
    rw [get_invoice_by_id_congr _ st iid (delete_payment_invoices_db st pid)]
    exact h
  | reconcile j =>
    show Option.map Invoice.status
      (get_invoice_by_id (calculate_invoice_status_after_payment st today j) iid)
        = some "Cancelled"
    by_cases hji : j = iid
    · subst hji
      cases hfind : get_invoice_by_id st j with
      | none =>
        unfold calculate_invoice_status_after_payment
        rw [hfind]
        exact h
      | some inv =>
        have hs : inv.status = "Cancelled" := by
          rw [hfind] at h
          simpa using h
        unfold calculate_invoice_status_after_payment
        rw [hfind]
        simp [hs, hfind]
    · rw [calc_get_ne st today j iid hji]
      exact h

/-- The pure status transition function is idempotent at fixed total
paid, total amount and date comparison. -/
lemma reconcileStatus_idem (tp ta : Money) (d : Bool) (s : String) :
    reconcileStatus tp ta d (reconcileStatus tp ta d s)
      = reconcileStatus tp ta d s := by
  unfold reconcileStatus
  split_ifs <;> simp_all

/-- The zero-total-paid case of the pure transition function, for a
positive total amount and a non-Cancelled status. -/
lemma reconcileStatus_zero (ta : Money) (d : Bool) (s : String)
    (hpos : 0 < ta) (hnc : s ≠ "Cancelled") :
    reconcileStatus 0 ta d s
      = if d = true ∧ s ≠ "Draft" ∧ s ≠ "Sent" then "Overdue"
        else if s = "Paid" ∨ s = "Partial" then "Sent"
        else s := by
  unfold reconcileStatus
  rw [if_neg hnc, if_neg (show ¬ (0 : Money) ≥ ta from not_le.mpr hpos),
    if_neg (show ¬ ((0 : Money) < 0 ∧ (0 : Money) < ta) by simp),
    if_pos rfl]
  simp [not_or, and_assoc]

lemma filter_not_filter (l : List Payment) (iid : Nat) :
    ((l.filter (fun p => !(p.invoice_id == iid))).filter
      (fun p => p.invoice_id == iid)) = [] := by
  induction l with
  | nil => rfl
  | cons a t ih =>
    by_cases h : a.invoice_id = iid <;> simp [h, ih]

lemma find_eraseP_nodup (l : List Invoice) (iid : Nat)
    (hnd : (l.map Invoice.invoice_id).Nodup) :
    (l.eraseP (fun inv => inv.invoice_id == iid)).find?
      (fun inv => inv.invoice_id == iid) = none := by
  induction l with
  | nil => rfl
  | cons a t ih =>
    rw [List.map_cons, List.nodup_cons] at hnd
    by_cases h : a.invoice_id = iid
    · have he : List.eraseP (fun inv => inv.invoice_id == iid) (a :: t) = t := by
        simp [List.eraseP_cons, h]
      rw [he, List.find?_eq_none]
      intro x hx
      simp only [beq_iff_eq]
      intro hxid
      apply hnd.1
      rw [h, ← hxid]
      exact List.mem_map_of_mem Invoice.invoice_id hx
    · have he : List.eraseP (fun inv => inv.invoice_id == iid) (a :: t)
          = a :: List.eraseP (fun inv => inv.invoice_id == iid) t := by
        simp [List.eraseP_cons, h]
      rw [he, List.find?_cons_of_neg _ (by simp [h])]
      exact ih hnd.2

/-! Concrete states used as inputs of the closed theorems. -/

/-- One invoice over 100 units with status Sent and a future due date,
and no payments yet. -/
def stC1 : State :=
  { invoices_db := [⟨1, 1, 0, 30, 100, "Sent", none⟩], payments_db := [] }

/-- Two invoices: invoice 1 over 100 units fully paid, invoice 2 over
200 units with one 50 unit payment. -/
def stC2 : State :=
  { invoices_db := [⟨1, 1, 0, 30, 100, "Sent", none⟩, ⟨2, 1, 0, 30, 200, "Draft", none⟩],
    payments_db := [⟨3, 1, 0, 100, "Cash", none, none⟩, ⟨4, 2, 0, 50, "Cash", none, none⟩] }

/-- One invoice with total amount zero, status Sent, a future due date
and no payments. -/
def stC3 : State :=
  { invoices_db := [⟨1, 1, 0, 10, 0, "Sent", none⟩], payments_db := [] }

/-- One Cancelled invoice, fully unpaid and past due. -/
def stC4 : State :=
  { invoices_db := [⟨1, 1, 0, -5, 100, "Cancelled", none⟩], payments_db := [] }

/-- Two invoices with one payment each. -/
def stC5 : State :=
  { invoices_db := [⟨1, 1, 0, 30, 100, "Sent", none⟩, ⟨2, 1, 0, 30, 50, "Draft", none⟩],
    payments_db := [⟨3, 1, 0, 10, "Cash", none, none⟩, ⟨4, 2, 0, 5, "Cash", none, none⟩] }

/-- One invoice with one 10 unit Cash payment. -/
def stC10 : State :=
  { invoices_db := [⟨1, 1, 0, 30, 100, "Sent", none⟩],
    payments_db := [⟨2, 1, 0, 10, "Cash", none, none⟩] }

/-- Empty stores. -/
def emptyState : State := { invoices_db := [], payments_db := [] }

/-- One order whose price is negative. -/
def ordersC6 : List Order := [⟨1, some (-1)⟩]

/-- Order 1 priced at 80 units, order 2 without a price. -/
def ordersC6b : List Order := [⟨1, some 80⟩, ⟨2, none⟩]

/-! The claims. -/

/-- Claim C1: the specification says every successful payment mutation
triggers the reconciliation of the owning invoice, and the test suite
(tests/payments/test_payment_manager.py, test_invoice_status_after_payment)
asserts it, but the calls to calculate_invoice_status_after_payment in
add_payment_to_invoice, update_payment_details and delete_payment are
commented out in the source, so the status is left stale. Concretely: on
an invoice over 100 units with status Sent, adding a 40 unit payment
succeeds, the reconciliation rules derive Partial from the new totals,
and an explicit run of the reconciliation yields Partial, yet the status
right after the call is still Sent. -/
theorem claim_C1_code_bug :
    (add_payment_to_invoice stC1 2 0 1 40 "Cash" none none).toOption.isSome = true
    ∧ Option.map Invoice.status
        (get_invoice_by_id (add_payment_apply stC1 2 0 1 40 "Cash" none none) 1)
        = some "Sent"
    ∧ total_paid (add_payment_apply stC1 2 0 1 40 "Cash" none none) 1 = 40
    ∧ reconcileStatus 40 100 false "Sent" = "Partial"
    ∧ Option.map Invoice.status
        (get_invoice_by_id
          (calculate_invoice_status_after_payment
            (add_payment_apply stC1 2 0 1 40 "Cash" none none) 0 1) 1)
        = some "Partial"
    ∧ some "Sent" ≠ (some "Partial" : Option String) := by decide

/-- Claim C2: for an invoice that is not Cancelled, the reconciliation
sets the status to Paid when the total paid is at least the total
amount, and to Partial when the total paid is strictly between zero and
the total amount. -/
theorem claim_C2_reconcile_thresholds (st : State) (today : Int)
    (iid : Nat) (inv : Invoice)
    (hfind : get_invoice_by_id st iid = some inv)
    (hnc : inv.status ≠ "Cancelled") :
    (total_paid st iid ≥ inv.total_amount →
      Option.map Invoice.status
        (get_invoice_by_id (calculate_invoice_status_after_payment st today iid) iid)
        = some "Paid")
    ∧ (0 < total_paid st iid ∧ total_paid st iid < inv.total_amount →
      Option.map Invoice.status
        (get_invoice_by_id (calculate_invoice_status_after_payment st today iid) iid)
        = some "Partial") := by
  rw [calc_status_spec st today iid inv hfind]
  constructor
  · intro hge
    simp [reconcileStatus, hnc, hge]
  · intro hbet
    have hlt : ¬ total_paid st iid ≥ inv.total_amount := not_le.mpr hbet.2
    simp [reconcileStatus, hnc, hlt, hbet]

theorem claim_C2_witness :
    (Option.map Invoice.status
      (get_invoice_by_id (calculate_invoice_status_after_payment stC2 0 1) 1)
      = some "Paid")
    ∧ (Option.map Invoice.status
      (get_invoice_by_id (calculate_invoice_status_after_payment stC2 0 2) 2)
      = some "Partial") :=
  ⟨(claim_C2_reconcile_thresholds stC2 0 1 ⟨1, 1, 0, 30, 100, "Sent", none⟩
      (by decide) (by decide)).1 (by decide),
   (claim_C2_reconcile_thresholds stC2 0 2 ⟨2, 1, 0, 30, 200, "Draft", none⟩
      (by decide) (by decide)).2 (by decide)⟩

/-- Claim C3, counterexample: the claim quantifies over every invoice
with zero total paid, but an invoice whose total amount is also zero is
caught by the total_paid at least total_amount branch first. Here the
due date (10) is not before today (0) and the status Sent is neither
Paid nor Partial, so the claim predicts the status is left unchanged at
Sent, yet the code sets it to Paid. -/
theorem claim_C3_counterexample :
    total_paid stC3 1 = 0
    ∧ Option.map Invoice.status (get_invoice_by_id stC3 1) = some "Sent"
    ∧ Option.map Invoice.due_date (get_invoice_by_id stC3 1) = some 10
    ∧ ¬ (10 : Int) < 0
    ∧ Option.map Invoice.status
        (get_invoice_by_id (calculate_invoice_status_after_payment stC3 0 1) 1)
        = some "Paid"
    ∧ some "Paid" ≠ (some "Sent" : Option String) := by decide

/-- Claim C3 as amended: for an invoice that is not Cancelled, with zero
total paid and a strictly positive total amount, the reconciliation sets
the status to Overdue when the due date is strictly before today and the
status is neither Draft nor Sent; otherwise it sets the status to Sent
when the current status is Paid or Partial; otherwise it leaves the
status unchanged. (The positivity condition on the total amount is what
the counterexample forces: at total amount zero the Paid branch fires
first.) -/
theorem claim_C3_amended (st : State) (today : Int) (iid : Nat) (inv : Invoice)
    (hfind : get_invoice_by_id st iid = some inv)
    (hnc : inv.status ≠ "Cancelled")
    (hzero : total_paid st iid = 0)
    (hpos : 0 < inv.total_amount) :
    (inv.due_date < today ∧ inv.status ≠ "Draft" ∧ inv.status ≠ "Sent" →
      Option.map Invoice.status
        (get_invoice_by_id (calculate_invoice_status_after_payment st today iid) iid)
        = some "Overdue")
    ∧ (¬ (inv.due_date < today ∧ inv.status ≠ "Draft" ∧ inv.status ≠ "Sent") →
        inv.status = "Paid" ∨ inv.status = "Partial" →
      Option.map Invoice.status
        (get_invoice_by_id (calculate_invoice_status_after_payment st today iid) iid)
        = some "Sent")
    ∧ (¬ (inv.due_date < today ∧ inv.status ≠ "Draft" ∧ inv.status ≠ "Sent") →
        ¬ (inv.status = "Paid" ∨ inv.status = "Partial") →
      Option.map Invoice.status
        (get_invoice_by_id (calculate_invoice_status_after_payment st today iid) iid)
        = some inv.status) := by
  rw [calc_status_spec st today iid inv hfind, hzero,
    reconcileStatus_zero inv.total_amount _ inv.status hpos hnc]
  refine ⟨?_, ?_, ?_⟩
  · intro hdue
    rw [if_pos ⟨by simp [hdue.1], hdue.2.1, hdue.2.2⟩]
    rfl
  · intro hdue hps
    have hd : ¬ ((decide (inv.due_date < today)) = true
        ∧ inv.status ≠ "Draft" ∧ inv.status ≠ "Sent") := by
      simpa using hdue
    rw [if_neg hd, if_pos hps]
    rfl
  · intro hdue hps
    have hd : ¬ ((decide (inv.due_date < today)) = true
        ∧ inv.status ≠ "Draft" ∧ inv.status ≠ "Sent") := by
      simpa using hdue
    rw [if_neg hd, if_neg hps]
    rfl

theorem claim_C3_amended_witness :
    Option.map Invoice.status
      (get_invoice_by_id (calculate_invoice_status_after_payment stC1 0 1) 1)
      = some "Sent" :=
  (claim_C3_amended stC1 0 1 ⟨1, 1, 0, 30, 100, "Sent", none⟩
      (by decide) (by decide) (by decide) (by decide)).2.2 (by decide) (by decide)

/-- Claim C4: a Cancelled invoice never changes status under any
sequence of payment mutations, reconciliations included. -/
theorem claim_C4_cancelled_is_terminal (today : Int) (st : State) (iid : Nat)
    (ops : List Op)
    (h : Option.map Invoice.status (get_invoice_by_id st iid) = some "Cancelled") :
    Option.map Invoice.status (get_invoice_by_id (runOps today st ops) iid)
      = some "Cancelled" := by
  induction ops generalizing st with
  | nil => exact h
  | cons op rest ih =>
    exact ih (Op.apply today st op) (op_preserves_cancelled today st iid op h)

theorem claim_C4_witness :
    Option.map Invoice.status
      (get_invoice_by_id
        (runOps 0 stC4
          [Op.addPayment 2 0 1 100 "Cash" none none, Op.reconcile 1,
           Op.deletePayment 2, Op.reconcile 1]) 1)
      = some "Cancelled" :=
  claim_C4_cancelled_is_terminal 0 stC4 1 _ (by decide)

/-- Claim C5: for an existing invoice id, delete_invoice returns true,
afterwards no payment references the deleted id, and (under the
reachable-state invariant that stored invoice ids are distinct, as they
are freshly generated UUIDs) the invoice itself is gone; for a missing
id it returns false and leaves the stores untouched. -/
theorem claim_C5_delete_invoice_cascades (st : State) (iid : Nat) :
    (get_invoice_by_id st iid = none → delete_invoice st iid = (false, st))
    ∧ (∀ inv, get_invoice_by_id st iid = some inv →
        (delete_invoice st iid).1 = true
        ∧ get_payments_for_invoice (delete_invoice st iid).2 iid = []
        ∧ ((st.invoices_db.map Invoice.invoice_id).Nodup →
            get_invoice_by_id (delete_invoice st iid).2 iid = none)) := by
  constructor
  · intro h
    unfold delete_invoice
    rw [h]
  · intro inv h
    unfold delete_invoice
    rw [h]
    refine ⟨rfl, ?_, ?_⟩
    · exact filter_not_filter st.payments_db iid
    · intro hnd
      exact find_eraseP_nodup st.invoices_db iid hnd

theorem claim_C5_witness :
    (delete_invoice stC5 1).1 = true
    ∧ get_payments_for_invoice (delete_invoice stC5 1).2 1 = []
    ∧ get_invoice_by_id (delete_invoice stC5 1).2 1 = none
    ∧ delete_invoice stC5 9 = (false, stC5) :=
  have h := (claim_C5_delete_invoice_cascades stC5 1).2
    ⟨1, 1, 0, 30, 100, "Sent", none⟩ (by decide)
  ⟨h.1, h.2.1, h.2.2 (by decide),
   (claim_C5_delete_invoice_cascades stC5 9).1 (by decide)⟩

/-- Claim C6, counterexample: the claim says that whenever the order
exists and its price is set, create_invoice returns a new Invoice with
that price as total amount. But order prices are never validated, and
for a negative price the Invoice constructor raises (total_amount cannot
be negative), so the call returns no invoice at all. -/
theorem claim_C6_counterexample :
    get_order_by_id ordersC6 1 = some ⟨1, some (-1)⟩
    ∧ Option.map Order.price (get_order_by_id ordersC6 1) = some (some (-1))
    ∧ create_invoice_for_order ordersC6 emptyState 1 0 1 30 none
        = Except.error Err.invalidArgument
    ∧ (create_invoice_for_order ordersC6 emptyState 1 0 1 30 none).toOption = none :=
  ⟨by decide, by decide, rfl, rfl⟩

/-- Claim C6 as amended: create_invoice fails with NotFound when the
order is missing, with InvalidState when the order has no price, with
InvalidArgument when the price is negative (the case the counterexample
forces the claim to add), and for a non-negative price returns a new
Invoice whose total amount is the price, whose status is Draft and whose
invoice date is today. -/
theorem claim_C6_amended (orders_db : List Order) (st : State) (iid : Nat)
    (today : Int) (oid : Nat) (due : Int) (nts : Option String) :
    (get_order_by_id orders_db oid = none →
      create_invoice_for_order orders_db st iid today oid due nts
        = Except.error Err.notFound)
    ∧ (∀ o, get_order_by_id orders_db oid = some o → o.price = none →
      create_invoice_for_order orders_db st iid today oid due nts
        = Except.error Err.invalidState)
    ∧ (∀ o pr, get_order_by_id orders_db oid = some o → o.price = some pr → pr < 0 →
      create_invoice_for_order orders_db st iid today oid due nts
        = Except.error Err.invalidArgument)
    ∧ (∀ o pr, get_order_by_id orders_db oid = some o → o.price = some pr → 0 ≤ pr →
      create_invoice_for_order orders_db st iid today oid due nts
        = Except.ok (⟨iid, oid, today, due, pr, "Draft", nts⟩,
            { st with invoices_db := st.invoices_db ++ [⟨iid, oid, today, due, pr, "Draft", nts⟩] })) := by
  refine ⟨?_, ?_, ?_, ?_⟩
  · intro h
    unfold create_invoice_for_order
    rw [h]
  · intro o h hp
    unfold create_invoice_for_order
    rw [h]
    simp [hp]
  · intro o pr h hp hlt
    unfold create_invoice_for_order Invoice.make
    rw [h]
    simp [hp, hlt]
  · intro o pr h hp hge
    unfold create_invoice_for_order Invoice.make
    rw [h]
    simp [hp, not_lt.mpr hge, Invoice.VALID_STATUSES]

theorem claim_C6_amended_witness :
    create_invoice_for_order ordersC6b emptyState 7 0 9 30 none
      = Except.error Err.notFound
    ∧ create_invoice_for_order ordersC6b emptyState 7 0 2 30 none
      = Except.error Err.invalidState
    ∧ create_invoice_for_order ordersC6 emptyState 7 0 1 30 none
      = Except.error Err.invalidArgument
    ∧ create_invoice_for_order ordersC6b emptyState 7 0 1 30 none
      = Except.ok (⟨7, 1, 0, 30, 80, "Draft", none⟩,
          { emptyState with invoices_db := [⟨7, 1, 0, 30, 80, "Draft", none⟩] }) :=
  ⟨(claim_C6_amended ordersC6b emptyState 7 0 9 30 none).1 (by decide),
   (claim_C6_amended ordersC6b emptyState 7 0 2 30 none).2.1 ⟨2, none⟩ (by decide) rfl,
   (claim_C6_amended ordersC6 emptyState 7 0 1 30 none).2.2.1 ⟨1, some (-1)⟩ (-1)
     (by decide) rfl (by decide),
   (claim_C6_amended ordersC6b emptyState 7 0 1 30 none).2.2.2 ⟨1, some 80⟩ 80
     (by decide) rfl (by decide)⟩

/-- Claim C7: add_payment fails with NotFound for a missing invoice,
with InvalidArgument for a non-positive amount or an out-of-enum payment
method, and on every failure the stores (hence the invoice status) are
unchanged. -/
theorem claim_C7_add_payment_errors (st : State) (pid : Nat) (pd : Int)
    (iid : Nat) (a : Money) (m : String) (tx nts : Option String) :
    (get_invoice_by_id st iid = none →
      add_payment_to_invoice st pid pd iid a m tx nts = Except.error Err.notFound)
    ∧ (get_invoice_by_id st iid ≠ none → a ≤ 0 →
      add_payment_to_invoice st pid pd iid a m tx nts = Except.error Err.invalidArgument)
    ∧ (get_invoice_by_id st iid ≠ none → ¬ a ≤ 0 → m ∉ Payment.VALID_PAYMENT_METHODS →
      add_payment_to_invoice st pid pd iid a m tx nts = Except.error Err.invalidArgument)
    ∧ (∀ e, add_payment_to_invoice st pid pd iid a m tx nts = Except.error e →
      add_payment_apply st pid pd iid a m tx nts = st) := by
  refine ⟨?_, ?_, ?_, ?_⟩
  · intro h
    unfold add_payment_to_invoice
    rw [h]
  · intro hne ha
    cases hfind : get_invoice_by_id st iid with
    | none => exact absurd hfind hne
    | some inv =>
      unfold add_payment_to_invoice Payment.make
      rw [hfind]
      simp [ha]
  · intro hne ha hm
    cases hfind : get_invoice_by_id st iid with
    | none => exact absurd hfind hne
    | some inv =>
      unfold add_payment_to_invoice Payment.make
      rw [hfind]
      simp [ha, hm]
  · intro e he
    unfold add_payment_apply
    rw [he]

theorem claim_C7_witness :
    add_payment_to_invoice stC1 5 0 9 10 "Cash" none none = Except.error Err.notFound
    ∧ add_payment_to_invoice stC1 5 0 1 0 "Cash" none none
      = Except.error Err.invalidArgument
    ∧ add_payment_to_invoice stC1 5 0 1 10 "Cheque" none none
      = Except.error Err.invalidArgument
    ∧ add_payment_apply stC1 5 0 1 0 "Cash" none none = stC1 :=
  ⟨(claim_C7_add_payment_errors stC1 5 0 9 10 "Cash" none none).1 (by decide),
   (claim_C7_add_payment_errors stC1 5 0 1 0 "Cash" none none).2.1
     (by decide) (by decide),
   (claim_C7_add_payment_errors stC1 5 0 1 10 "Cheque" none none).2.2.1
     (by decide) (by decide) (by decide),
   (claim_C7_add_payment_errors stC1 5 0 1 0 "Cash" none none).2.2.2
     Err.invalidArgument (by rfl)⟩

/-- Claim C8: update_status signals not-found for a missing invoice,
fails with InvalidArgument for a status outside the valid enum, and
otherwise overwrites the status unconditionally, whatever the old
status was. -/
theorem claim_C8_update_status_unconditional (st : State) (iid : Nat) (ns : String) :
    (get_invoice_by_id st iid = none →
      update_invoice_status st iid ns = (UpdateResult.notFound, st))
    ∧ (∀ inv, get_invoice_by_id st iid = some inv → ns ∉ Invoice.VALID_STATUSES →
      update_invoice_status st iid ns = (UpdateResult.error Err.invalidArgument, st))
    ∧ (∀ inv, get_invoice_by_id st iid = some inv → ns ∈ Invoice.VALID_STATUSES →
      (update_invoice_status st iid ns).1 = UpdateResult.ok { inv with status := ns }
      ∧ Option.map Invoice.status
          (get_invoice_by_id (update_invoice_status st iid ns).2 iid) = some ns) := by
  refine ⟨?_, ?_, ?_⟩
  · intro h
    unfold update_invoice_status
    rw [h]
  · intro inv h hns
    unfold update_invoice_status
    rw [h]
    simp [hns]
  · intro inv h hns
    constructor
    · unfold update_invoice_status
      rw [h]
      simp [hns]
    · rw [get_invoice_by_id_update_pos st iid ns inv h hns]
      rfl

theorem claim_C8_witness :
    update_invoice_status stC1 9 "Paid" = (UpdateResult.notFound, stC1)
    ∧ update_invoice_status stC1 1 "Bogus"
      = (UpdateResult.error Err.invalidArgument, stC1)
    ∧ (update_invoice_status stC1 1 "Cancelled").1
      = UpdateResult.ok ⟨1, 1, 0, 30, 100, "Cancelled", none⟩
    ∧ Option.map Invoice.status
        (get_invoice_by_id (update_invoice_status stC1 1 "Cancelled").2 1)
      = some "Cancelled" :=
  ⟨(claim_C8_update_status_unconditional stC1 9 "Paid").1 (by decide),
   (claim_C8_update_status_unconditional stC1 1 "Bogus").2.1
     ⟨1, 1, 0, 30, 100, "Sent", none⟩ (by decide) (by decide),
   ((claim_C8_update_status_unconditional stC1 1 "Cancelled").2.2
     ⟨1, 1, 0, 30, 100, "Sent", none⟩ (by decide) (by decide)).1,
   ((claim_C8_update_status_unconditional stC1 1 "Cancelled").2.2
     ⟨1, 1, 0, 30, 100, "Sent", none⟩ (by decide) (by decide)).2⟩

/-- Claim C10: update_payment_details applies its optional fields in a
fixed order, so a call carrying a valid positive amount together with an
out-of-enum payment method raises InvalidArgument only after the amount
has already been overwritten: the stored payment ends up partially
updated (new amount, old method), not unchanged. -/
theorem claim_C10_partial_update_on_method_error (st : State) (pid : Nat)
    (p : Payment) (a : Money) (m : String)
    (hfind : get_payment_by_id st pid = some p)
    (ha : 0 < a) (hm : m ∉ Payment.VALID_PAYMENT_METHODS) :
    (update_payment_details st pid (some a) (some m) none none).1
      = UpdateResult.error Err.invalidArgument
    ∧ Option.map Payment.amount_paid
        (get_payment_by_id (update_payment_details st pid (some a) (some m) none none).2 pid)
      = some a
    ∧ Option.map Payment.payment_method
        (get_payment_by_id (update_payment_details st pid (some a) (some m) none none).2 pid)
      = some p.payment_method := by
  have hres : update_payment_details st pid (some a) (some m) none none
      = (UpdateResult.error Err.invalidArgument,
         { st with payments_db := modify_payment st.payments_db pid (fun q => { q with amount_paid := a }) }) := by
    unfold update_payment_details update_payment_step1
    rw [hfind]
    simp [not_le.mpr ha, hm]
  have hfind1 : get_payment_by_id
      { st with payments_db := modify_payment st.payments_db pid (fun q => { q with amount_paid := a }) } pid
      = some { p with amount_paid := a } := by
    unfold get_payment_by_id
    rw [show ({ st with payments_db := modify_payment st.payments_db pid (fun q => { q with amount_paid := a }) } : State).payments_db = modify_payment st.payments_db pid (fun q => { q with amount_paid := a }) from rfl]
    rw [find_modify_payment st.payments_db pid (fun q => { q with amount_paid := a }) (fun q => rfl)]
    unfold get_payment_by_id at hfind
    rw [hfind]
    rfl
  rw [hres]
  exact ⟨rfl, by rw [hfind1]; rfl, by rw [hfind1]; rfl⟩

theorem claim_C10_witness :
    (update_payment_details stC10 2 (some 25) (some "Cheque") none none).1
      = UpdateResult.error Err.invalidArgument
    ∧ Option.map Payment.amount_paid
        (get_payment_by_id (update_payment_details stC10 2 (some 25) (some "Cheque") none none).2 2)
      = some 25
    ∧ Option.map Payment.payment_method
        (get_payment_by_id (update_payment_details stC10 2 (some 25) (some "Cheque") none none).2 2)
      = some "Cash" :=
  claim_C10_partial_update_on_method_error stC10 2 ⟨2, 1, 0, 10, "Cash", none, none⟩
    25 "Cheque" (by decide) (by decide) (by decide)

/-- Claim C9: reconciling twice in a row on the same state yields the
same status as reconciling once. -/
theorem claim_C9_reconciliation_idempotent (st : State) (today : Int) (iid : Nat) :
    Option.map Invoice.status
      (get_invoice_by_id
        (calculate_invoice_status_after_payment
          (calculate_invoice_status_after_payment st today iid) today iid) iid)
      = Option.map Invoice.status
        (get_invoice_by_id (calculate_invoice_status_after_payment st today iid) iid) := by
  cases hfind : get_invoice_by_id st iid with
  | none =>
    have h1 : calculate_invoice_status_after_payment st today iid = st := by
      unfold calculate_invoice_status_after_payment
      rw [hfind]
    rw [h1, h1]
  | some inv =>
    have h1 := calc_status_spec st today iid inv hfind
    have h2 := calc_status_spec (calculate_invoice_status_after_payment st today iid)
      today iid _ h1
    have htp : total_paid (calculate_invoice_status_after_payment st today iid) iid
        = total_paid st iid :=
      total_paid_congr _ st iid (calc_payments_db st today iid)
    rw [h2, h1, htp]
    simp [reconcileStatus_idem]

end Derzi
